import Mathlib

/-!
Verification of the SM83 processor emulator: register file, flag engine,
endian codec, memory bus, cartridge loader and a selection of instruction
routines, embedded shallowly from src/src/processor.rs and
src/src/instructions.rs.  Machine integers (u8, u16) are modelled as Nat
with an explicit `% 256` / `% 65536` wherever the Rust type coerces or
truncates; `checked_add` / `checked_sub` (which panic in the source) are
modelled with Option; the panics in load_cartridge are modelled with Except.
-/

namespace GB

/-- Register names, in the order of the `Register` enum of processor.rs
(A = 0, F = 1, B = 2, C = 3, D = 4, E = 5, H = 6, L = 7). -/
inductive Register
  | A | F | B | C | D | E | H | L
deriving DecidableEq

/-- Discriminant of the `Register` enum: the index into the register array. -/
def Register.index : Register → Nat
  | .A => 0
  | .F => 1
  | .B => 2
  | .C => 3
  | .D => 4
  | .E => 5
  | .H => 6
  | .L => 7

/-- Flag names with their bit masks, from the `Flag` enum of processor.rs. -/
inductive Flag
  | Z | N | H | C
deriving DecidableEq

/-- Discriminant of the `Flag` enum: the mask bit of the flag inside F. -/
def Flag.val : Flag → Nat
  | .Z => 0x80
  | .N => 0x40
  | .H => 0x20
  | .C => 0x10

/-- Processor state of processor.rs: stack pointer, program counter, the
eight-slot register array (indexed by `Register.index`) and the 64KiB
memory array (indexed by a u16 address).  The arrays are modelled as
functions from Nat; every write masks its value to u8, mirroring the `u8`
element type of the Rust arrays. -/
structure Processor where
  stack_pointer : Nat
  program_counter : Nat
  registers : Nat → Nat
  memory : Nat → Nat

/-- `Processor::new`: everything zero-initialized. -/
def Processor.new : Processor :=
  { stack_pointer := 0, program_counter := 0,
    registers := fun _ => 0, memory := fun _ => 0 }

/-- `write_register`: store a u8 value in the slot of the given register.
The `% 256` encodes the `u8` type of the value argument. -/
def write_register (cpu : Processor) (index : Register) (value : Nat) : Processor :=
  { cpu with registers := fun i => if i = index.index then value % 256 else cpu.registers i }

/-- `read_register`: read a register slot. -/
def read_register (cpu : Processor) (index : Register) : Nat :=
  cpu.registers index.index

/-- `set_flag`: the source writes the flag's own mask byte into F
(`self.write_register(Register::F, flag as u8)`). -/
def set_flag (cpu : Processor) (flag : Flag) : Processor :=
  write_register cpu .F flag.val

/-- `reset_flag`: the source writes the u8 complement of the flag's mask
byte into F (`self.write_register(Register::F, !(flag as u8))`); `!x` on a
u8 is `255 ^^^ x`. -/
def reset_flag (cpu : Processor) (flag : Flag) : Processor :=
  write_register cpu .F (255 ^^^ flag.val)

/-- `read_flags`: read the F register. -/
def read_flags (cpu : Processor) : Nat :=
  read_register cpu .F

/-- `write_memory`: store a u8 value at a u16 address.  The `% 65536`
encodes the `u16` address type, the `% 256` the `u8` value type. -/
def write_memory (cpu : Processor) (address value : Nat) : Processor :=
  { cpu with memory := fun i => if i = address % 65536 then value % 256 else cpu.memory i }

/-- `read_memory`: read the byte at a u16 address. -/
def read_memory (cpu : Processor) (address : Nat) : Nat :=
  cpu.memory (address % 65536)

/-- `to_u16` of instructions.rs: `((b0 as u16) << 8) | b1 as u16`.  The
`% 256` on each argument encodes their `u8` type; the result of the shift
and or of two u8-ranged values never exceeds a u16, so no further mask is
needed. -/
def to_u16 (b0 b1 : Nat) : Nat :=
  ((b0 % 256) <<< 8) ||| (b1 % 256)

/-- `to_u8` of instructions.rs: `((b >> 8) as u8, b as u8)` on a u16
argument.  The outer `% 65536` encodes the `u16` argument type, the
`% 256` the `as u8` casts. -/
def to_u8 (b : Nat) : Nat × Nat :=
  (((b % 65536) >>> 8) % 256, (b % 65536) % 256)

/-- `increase_register` (INC r8).  `checked_add(1).expect` panics on u8
overflow: modelled as `none`.  The half-carry expression keeps the Rust
operator precedence: `+` binds tighter than `&`, so
`((ri - 1) & 0xF) + (ri & 0xF) & 0x10` is `(((ri-1) &&& 0xF) + (ri &&& 0xF)) &&& 0x10`. -/
def increase_register (cpu : Processor) (_instruction : Nat) (register : Register) :
    Option Processor :=
  let v := read_register cpu register
  if 256 ≤ v + 1 then none else
  let register_increment := v + 1
  let cpu := write_register cpu register register_increment
  let h := (((register_increment - 1) &&& 0xF) + (register_increment &&& 0xF)) &&& 0x10
  let cpu := if register_increment = 0 then set_flag cpu .Z else cpu
  let cpu := reset_flag cpu .N
  let cpu := if h = 0x10 then set_flag cpu .H else cpu
  some cpu

/-- `decrease_register` (DEC r8).  `checked_sub(1).expect` panics on u8
underflow: modelled as `none`.  The half-carry is computed from the low
nibble of the result, exactly as in the source. -/
def decrease_register (cpu : Processor) (_instruction : Nat) (register : Register) :
    Option Processor :=
  let v := read_register cpu register
  if v = 0 then none else
  let register_decrement := v - 1
  let cpu := write_register cpu register register_decrement
  let h := register_decrement &&& 0x0F
  let cpu := if register_decrement = 0 then set_flag cpu .Z else cpu
  let cpu := set_flag cpu .N
  let cpu := if h = 0x00 then set_flag cpu .H else cpu
  some cpu

/-- `inc_hlp` (INC [HL]): address is `to_u16(H, L)`. -/
def inc_hlp (cpu : Processor) (_instruction : Nat) : Option Processor :=
  let memory_position := to_u16 (read_register cpu .H) (read_register cpu .L)
  let v := read_memory cpu memory_position
  if 256 ≤ v + 1 then none else
  let register_increment := v + 1
  let cpu := write_memory cpu memory_position register_increment
  let h := (((register_increment - 1) &&& 0xF) + (register_increment &&& 0xF)) &&& 0x10
  let cpu := if register_increment = 0 then set_flag cpu .Z else cpu
  let cpu := reset_flag cpu .N
  let cpu := if h = 0x10 then set_flag cpu .H else cpu
  some cpu

/-- `dec_hlp` (DEC [HL]): the source computes the address as
`to_u16(read_register(L), read_register(H))`, i.e. with L as the high byte
and H as the low byte. -/
def dec_hlp (cpu : Processor) (_instruction : Nat) : Option Processor :=
  let memory_position := to_u16 (read_register cpu .L) (read_register cpu .H)
  let v := read_memory cpu memory_position
  if v = 0 then none else
  let register_decrement := v - 1
  let cpu := write_memory cpu memory_position register_decrement
  let h := register_decrement &&& 0x0F
  let cpu := if register_decrement = 0 then set_flag cpu .Z else cpu
  let cpu := set_flag cpu .N
  let cpu := if h = 0x00 then set_flag cpu .H else cpu
  some cpu

/-- `load_double_registerp_a` (LD [r16] A): write A to the address packed
from the two given registers. -/
def load_double_registerp_a (cpu : Processor) (_instruction : Nat)
    (register_a register_b : Register) : Processor :=
  let memory_address := to_u16 (read_register cpu register_a) (read_register cpu register_b)
  let value := read_register cpu .A
  write_memory cpu memory_address value

/-- `ld_bcp_a`: bound to the pair (B, C) in the source. -/
def ld_bcp_a (cpu : Processor) (instruction : Nat) : Processor :=
  load_double_registerp_a cpu instruction .B .C

/-- `ld_dep_a`: the source also passes (Register::B, Register::C) here,
not (D, E). -/
def ld_dep_a (cpu : Processor) (instruction : Nat) : Processor :=
  load_double_registerp_a cpu instruction .B .C

/-- `rlca`: carry is `a >> 7`; the new A is `(a << 1) | carry`, where the
u8 shift truncates to 8 bits (`% 256`). -/
def rlca (cpu : Processor) (_instruction : Nat) : Processor :=
  let a := read_register cpu .A
  let carry := a >>> 7
  let cpu := if carry = 0x1 then set_flag cpu .C else reset_flag cpu .C
  write_register cpu .A (((a <<< 1) % 256) ||| carry)

/-- `rrca`: carry is `a << 7` (u8, truncated); the new A is
`(a >> 1) | carry`. -/
def rrca (cpu : Processor) (_instruction : Nat) : Processor :=
  let a := read_register cpu .A
  let carry := (a <<< 7) % 256
  let cpu := if carry = 0x80 then set_flag cpu .C else reset_flag cpu .C
  write_register cpu .A ((a >>> 1) ||| carry)

/-- Failure modes of `load_cartridge`.  In the source each one is a panic;
they are listed in program order: the `from_utf8(..).unwrap()` on the
title bytes, the checksum `assert_eq` (message "Cartridge corrupted"), the
`panic` of the cartridge-type match, the `panic` of the RAM-size match,
and the final `assert_eq(bytes[0x147], 0)` restricting to ROM-only carts. -/
inductive LoadError
  | invalidTitle
  | corruptCartridge
  | invalidCartridgeType
  | invalidRamType
  | unsupportedMapper
deriving DecidableEq

/-- Whether a byte is a UTF-8 continuation byte (0x80..=0xBF). -/
def utf8cont (b : Nat) : Bool :=
  if 0x80 ≤ b ∧ b ≤ 0xBF then true else false

/-- UTF-8 validity of a byte list, as checked by Rust's
`std::str::from_utf8`: ASCII, 2-byte sequences C2..DF, 3-byte sequences
E0..EF (with the overlong and surrogate restrictions on E0 and ED), and
4-byte sequences F0..F4 (with the restrictions on F0 and F4). -/
def validUtf8 : List Nat → Bool
  | [] => true
  | b :: rest =>
    if b ≤ 0x7F then validUtf8 rest
    else if 0xC2 ≤ b ∧ b ≤ 0xDF then
      match rest with
      | c1 :: rest2 => utf8cont c1 && validUtf8 rest2
      | [] => false
    else if b = 0xE0 then
      match rest with
      | c1 :: c2 :: rest2 =>
        (if 0xA0 ≤ c1 ∧ c1 ≤ 0xBF then true else false) && utf8cont c2 && validUtf8 rest2
      | _ => false
    else if b = 0xED then
      match rest with
      | c1 :: c2 :: rest2 =>
        (if 0x80 ≤ c1 ∧ c1 ≤ 0x9F then true else false) && utf8cont c2 && validUtf8 rest2
      | _ => false
    else if (0xE1 ≤ b ∧ b ≤ 0xEF) then
      match rest with
      | c1 :: c2 :: rest2 => utf8cont c1 && utf8cont c2 && validUtf8 rest2
      | _ => false
    else if b = 0xF0 then
      match rest with
      | c1 :: c2 :: c3 :: rest2 =>
        (if 0x90 ≤ c1 ∧ c1 ≤ 0xBF then true else false) && utf8cont c2 && utf8cont c3 &&
          validUtf8 rest2
      | _ => false
    else if b = 0xF4 then
      match rest with
      | c1 :: c2 :: c3 :: rest2 =>
        (if 0x80 ≤ c1 ∧ c1 ≤ 0x8F then true else false) && utf8cont c2 && utf8cont c3 &&
          validUtf8 rest2
      | _ => false
    else if 0xF1 ≤ b ∧ b ≤ 0xF3 then
      match rest with
      | c1 :: c2 :: c3 :: rest2 =>
        utf8cont c1 && utf8cont c2 && utf8cont c3 && validUtf8 rest2
      | _ => false
    else false
/-- The title slice `&bytes[0x0134..0x0143]` (15 bytes, end exclusive). -/
def title_bytes (bytes : Nat → Nat) : List Nat :=
  (List.range 15).map fun k => bytes (0x134 + k) % 256

/-- The header checksum loop of `load_cartridge`: over `0x0134..=0x014C`
(25 bytes) accumulate `sum = sum.wrapping_sub(bytes[i].wrapping_add(1))`.
`wrapping_add(1)` on a u8 is `(b + 1) % 256`; `wrapping_sub` is modelled as
`(sum + 256 - x) % 256`, which agrees with u8 wraparound because both
operands are below 256. -/
def header_checksum (bytes : Nat → Nat) : Nat :=
  (List.range 25).foldl
    (fun sum i => (sum + 256 - (bytes (0x134 + i) % 256 + 1) % 256) % 256) 0

/-- The recognized cartridge-type bytes: the arms of the
`match bytes[0x147]` in `load_cartridge` (any other value panics). -/
def cartridge_types : List Nat :=
  [0x00, 0x01, 0x02, 0x03, 0x05, 0x06, 0x08, 0x09, 0x0B, 0x0C, 0x0D,
   0x0F, 0x10, 0x11, 0x12, 0x13, 0x19, 0x1A, 0x1B, 0x1C, 0x1D, 0x1E,
   0x20, 0x22, 0xFC, 0xFD, 0xFE, 0xFF]

/-- `load_cartridge`, given the (zero-padded) byte buffer read from the
cartridge file.  The checks are in source order: title UTF-8 unwrap,
header-checksum assert, cartridge-type match (recognized values 0..5 for
RAM size), RAM-size match, the ROM-only assert, and finally
`self.memory[0..8000].copy_from_slice(&bytes[0..8000])` — the source uses
the decimal literal 8000 for the copy bound. -/
def load_cartridge (cpu : Processor) (bytes : Nat → Nat) : Except LoadError Processor :=
  if validUtf8 (title_bytes bytes) = false then .error .invalidTitle
  else if header_checksum bytes ≠ bytes 0x14D % 256 then .error .corruptCartridge
  else if bytes 0x147 % 256 ∉ cartridge_types then .error .invalidCartridgeType
  else if 6 ≤ bytes 0x149 % 256 then .error .invalidRamType
  else if bytes 0x147 % 256 ≠ 0 then .error .unsupportedMapper
  else .ok { cpu with memory := fun a => if a < 8000 then bytes a % 256 else cpu.memory a }

/-- Observable outcome of `load_cartridge`: the error it fails with, if
any (needed because a `Processor` holds functions and equality of whole
`Except` values is not decidable). -/
def load_result (cpu : Processor) (bytes : Nat → Nat) : Option LoadError :=
  match load_cartridge cpu bytes with
  | .error e => some e
  | .ok _ => none

/-- Observable outcome of a successful `load_cartridge`: the byte the
Memory Bus then holds at address `a`. -/
def load_view (cpu : Processor) (bytes : Nat → Nat) (a : Nat) : Option Nat :=
  match load_cartridge cpu bytes with
  | .error _ => none
  | .ok p => some (read_memory p a)

/-- Concrete buffer whose title range holds the byte 0xFF (never valid in
UTF-8) and whose checksum byte does not match the header checksum. -/
def bad_title_buffer : Nat → Nat :=
  fun i => if i = 0x134 then 0xFF else 0

/-- The all-zero buffer: its title is valid UTF-8 and its header checksum
is 231, which does not match the stored checksum byte 0. -/
def zero_buffer : Nat → Nat :=
  fun _ => 0

/-- Concrete ROM-only buffer with a correct checksum byte (0xE7) and a
marker byte 0xAB at the ROM-bank-0 offset 0x2000. -/
def rom_marker_buffer : Nat → Nat :=
  fun i => if i = 0x14D then 0xE7 else if i = 0x2000 then 0xAB else 0

/- Helper lemmas about the state operations. -/

/-- Packing two bytes is multiplication by 256 plus the low byte. -/
theorem to_u16_eq (b0 b1 : Nat) (h0 : b0 < 256) (h1 : b1 < 256) :
    to_u16 b0 b1 = b0 * 256 + b1 := by
  have key := (Nat.mul_add_lt_is_or (i := 8) (show b1 < 2 ^ 8 from h1) b0).symm
  unfold to_u16
  rw [Nat.mod_eq_of_lt h0, Nat.mod_eq_of_lt h1, Nat.shiftLeft_eq,
    Nat.mul_comm b0 (2 ^ 8), key]

/-- Register writes do not touch memory. -/
theorem read_memory_write_register (cpu : Processor) (r : Register) (v a : Nat) :
    read_memory (write_register cpu r v) a = read_memory cpu a := rfl

/-- Setting a flag does not touch memory. -/
theorem read_memory_set_flag (cpu : Processor) (f : Flag) (a : Nat) :
    read_memory (set_flag cpu f) a = read_memory cpu a := rfl

/-- Resetting a flag does not touch memory. -/
theorem read_memory_reset_flag (cpu : Processor) (f : Flag) (a : Nat) :
    read_memory (reset_flag cpu f) a = read_memory cpu a := rfl

/-- Reading after a memory write: the written byte at the written cell,
the old byte elsewhere. -/
theorem read_memory_write_memory (cpu : Processor) (b w a : Nat) :
    read_memory (write_memory cpu b w) a =
      if a % 65536 = b % 65536 then w % 256 else read_memory cpu a := rfl

/-- Reading memory commutes with a state-level if. -/
theorem read_memory_ite (c : Prop) [Decidable c] (s t : Processor) (a : Nat) :
    read_memory (if c then s else t) a =
      if c then read_memory s a else read_memory t a := by
  split <;> rfl

/-- Reading A after writing A gives the written byte. -/
theorem read_a_write_a (cpu : Processor) (v : Nat) :
    read_register (write_register cpu .A v) .A = v % 256 := by
  simp [read_register, write_register, Register.index]

/-- Writing A does not change the flags. -/
theorem read_flags_write_a (cpu : Processor) (v : Nat) :
    read_flags (write_register cpu .A v) = read_flags cpu := by
  simp [read_flags, read_register, write_register, Register.index]

/-- After `set_flag` the F register holds exactly the flag's mask byte. -/
theorem read_flags_set_flag (cpu : Processor) (f : Flag) :
    read_flags (set_flag cpu f) = f.val := by
  cases f <;> simp [set_flag, read_flags, read_register, write_register, Register.index, Flag.val]

/-- After `reset_flag` the F register holds the u8 complement of the
flag's mask byte. -/
theorem read_flags_reset_flag (cpu : Processor) (f : Flag) :
    read_flags (reset_flag cpu f) = 255 ^^^ f.val := by
  cases f <;>
    simp [reset_flag, read_flags, read_register, write_register, Register.index, Flag.val]

/-- Flag writes do not change A. -/
theorem read_a_set_flag (cpu : Processor) (f : Flag) :
    read_register (set_flag cpu f) .A = read_register cpu .A := by
  simp [set_flag, read_register, write_register, Register.index]

/-- Flag resets do not change A. -/
theorem read_a_reset_flag (cpu : Processor) (f : Flag) :
    read_register (reset_flag cpu f) .A = read_register cpu .A := by
  simp [reset_flag, read_register, write_register, Register.index]

/- Claims. -/

/-- C1: evaluation of the code at the claim's inputs.  Incrementing a
register holding 0xFF panics (`checked_add` models as `none`) instead of
wrapping to 0x00 with Zero set; incrementing 0x0F yields F = 0xBF, in
which the Zero bit 0x80 is set although the claim requires it clear;
decrementing 0x10 yields F = 0x40, in which the Half-Carry bit 0x20 is
clear although the claim requires it set; decrementing 0x01 yields
F = 0x20, in which the Half-Carry bit is set although the claim requires
it clear. -/
theorem inc_dec_flag_divergence :
    (increase_register (write_register Processor.new .A 0xFF) 0 .A).map read_flags = none ∧
    (increase_register (write_register Processor.new .A 0x0F) 0 .A).map
        (fun p => (read_register p .A, read_flags p)) = some (0x10, 0xBF) ∧
    0xBF &&& 0x80 = 0x80 ∧
    (decrease_register (write_register Processor.new .A 0x10) 0 .A).map read_flags
        = some 0x40 ∧
    0x40 &&& 0x20 = 0 ∧
    (decrease_register (write_register Processor.new .A 0x01) 0 .A).map read_flags
        = some 0x20 ∧
    0x20 &&& 0x20 = 0x20 := by
  decide

/-- C2: evaluation of the code at a failing input.  On a state whose F
register holds 0x80 (Zero set), `set_flag(C)` overwrites F with 0x10, so
the Zero bit is lost instead of left untouched; `reset_flag(C)` overwrites
F with 0xEF, setting the N and H bits (and the low nibble) that were
clear. -/
theorem set_flag_overwrites_f :
    read_flags (write_register Processor.new .F 0x80) &&& 0x80 = 0x80 ∧
    read_flags (set_flag (write_register Processor.new .F 0x80) .C) = 0x10 ∧
    read_flags (set_flag (write_register Processor.new .F 0x80) .C) &&& 0x80 = 0 ∧
    read_flags (reset_flag (write_register Processor.new .F 0x80) .C) = 0xEF := by
  decide

/-- C3 counterexample: writing 0x0F to F stores 0x0F verbatim, so reading
F returns 0x0F and not `0x0F &&& 0xF0 = 0`: the low nibble is not zeroed. -/
theorem write_f_low_nibble_cex :
    read_register (write_register Processor.new .F 0x0F) .F = 0x0F ∧
    (0x0F : Nat) ≠ 0x0F &&& 0xF0 := by
  decide

/-- C3 amended: `write_register(F, v)` stores the u8 value v unmasked;
reading F afterwards returns v itself (reduced mod 256, the u8 range),
not v &&& 0xF0. -/
theorem write_f_stores_verbatim (cpu : Processor) (v : Nat) :
    read_register (write_register cpu .F v) .F = v % 256 := by
  simp [read_register, write_register, Register.index]

/-- C4: the endian round-trip holds: unpacking the word packed from any
two bytes returns the original pair. -/
theorem endian_round_trip (h l : Nat) (hh : h < 256) (hl : l < 256) :
    to_u8 (to_u16 h l) = (h, l) := by
  rw [to_u16_eq h l hh hl]
  unfold to_u8
  rw [Nat.shiftRight_eq_div_pow]
  have hp : (2 : Nat) ^ 8 = 256 := by norm_num
  rw [hp, Prod.mk.injEq]
  omega

/-- C4 witness at the pair (0xAB, 0xCD). -/
theorem endian_round_trip_witness :
    0xAB < 256 ∧ 0xCD < 256 ∧ to_u8 (to_u16 0xAB 0xCD) = (0xAB, 0xCD) :=
  ⟨by decide, by decide, endian_round_trip 0xAB 0xCD (by decide) (by decide)⟩

/-- C6 counterexample: on a fresh processor, writing 0xAB to the working
RAM address 0xC010 leaves the echo address 0xE010 reading 0, not 0xAB:
the memory is a flat array with no echo aliasing. -/
theorem echo_ram_cex :
    read_memory (write_memory Processor.new 0xC010 0xAB) 0xE010 = 0 ∧
    (0 : Nat) ≠ 0xAB := by
  decide

/-- C6 amended: a memory write changes exactly the addressed cell: the
written address reads back the written byte, and every other address
(including the echo partner at distance 0x2000) keeps its previous
value. -/
theorem memory_write_no_alias (cpu : Processor) (a v b : Nat)
    (ha : a < 65536) (hb : b < 65536) (hne : a ≠ b) :
    read_memory (write_memory cpu a v) b = read_memory cpu b ∧
    read_memory (write_memory cpu a v) a = v % 256 := by
  constructor
  · rw [read_memory_write_memory, Nat.mod_eq_of_lt ha, Nat.mod_eq_of_lt hb,
      if_neg (fun hx => hne hx.symm)]
  · rw [read_memory_write_memory, if_pos rfl]

/-- C6 witness: write 0xAB to 0xC010; 0xE010 is unchanged and 0xC010
reads the byte back. -/
theorem memory_write_no_alias_witness :
    0xC010 < 65536 ∧ 0xE010 < 65536 ∧ (0xC010 : Nat) ≠ 0xE010 ∧
    (read_memory (write_memory Processor.new 0xC010 0xAB) 0xE010 =
        read_memory Processor.new 0xE010 ∧
      read_memory (write_memory Processor.new 0xC010 0xAB) 0xC010 = 0xAB % 256) :=
  ⟨by decide, by decide, by decide,
    memory_write_no_alias Processor.new 0xC010 0xAB 0xE010 (by decide) (by decide) (by decide)⟩

set_option maxRecDepth 4096 in
/-- Arithmetic description of the bit manipulations of `rlca` and `rrca`
on a byte. -/
theorem rot8_arith : ∀ a : Fin 256,
    ((((a.val <<< 1) % 256) ||| (a.val >>> 7)) % 256 = a.val * 2 % 256 + a.val / 128) ∧
    (a.val >>> 7 = 1 ↔ 128 ≤ a.val) ∧
    (((a.val >>> 1) ||| ((a.val <<< 7) % 256)) % 256 = a.val / 2 + a.val % 2 * 128) ∧
    ((a.val <<< 7) % 256 = 0x80 ↔ a.val % 2 = 1) := by
  decide

/-- Reading the flags commutes with a state-level if. -/
theorem read_flags_ite (c : Prop) [Decidable c] (s t : Processor) :
    read_flags (if c then s else t) = if c then read_flags s else read_flags t := by
  split <;> rfl

/-- C5 counterexample: with A = 0b1100_1100 the rotate-right routine
leaves A = 0b0110_0110 but the Carry bit of F is CLEAR (the outgoing bit 0
of 0xCC is 0), refuting the claim that this input yields Carry set. -/
theorem rrca_carry_cex :
    read_register (rrca (write_register Processor.new .A 0xCC) 0) .A = 0x66 ∧
    read_flags (rrca (write_register Processor.new .A 0xCC) 0) &&& 0x10 = 0 := by
  decide

/-- C5 amended: rotate-accumulator-left rotates A left by one bit (the
vacated bit 0 receives the outgoing bit 7) and rotate-accumulator-right
rotates A right by one bit (the vacated bit 7 receives the outgoing
bit 0).  Carry is set exactly when the outgoing bit is 1; when the
outgoing bit is 1 the routine writes F = 0x10 (all other flags cleared),
and when it is 0 the routine writes F = 0xEF (all other flag bits set,
because `reset_flag` stores the complement of the Carry mask). -/
theorem rotate_accumulator_spec (cpu : Processor) (i : Nat)
    (ha : read_register cpu .A < 256) :
    read_register (rlca cpu i) .A
        = read_register cpu .A * 2 % 256 + read_register cpu .A / 128 ∧
    read_flags (rlca cpu i) = (if 128 ≤ read_register cpu .A then 0x10 else 0xEF) ∧
    read_register (rrca cpu i) .A
        = read_register cpu .A / 2 + read_register cpu .A % 2 * 128 ∧
    read_flags (rrca cpu i) = (if read_register cpu .A % 2 = 1 then 0x10 else 0xEF) := by
  obtain ⟨k1, k2, k3, k4⟩ := rot8_arith ⟨read_register cpu .A, ha⟩
  simp only [Fin.val_mk] at k1 k2 k3 k4
  refine ⟨?_, ?_, ?_, ?_⟩
  · rw [show rlca cpu i = write_register
        (if read_register cpu .A >>> 7 = 0x1 then set_flag cpu .C else reset_flag cpu .C) .A
        (((read_register cpu .A <<< 1) % 256) ||| (read_register cpu .A >>> 7)) from rfl]
    rw [read_a_write_a]
    exact k1
  · rw [show rlca cpu i = write_register
        (if read_register cpu .A >>> 7 = 0x1 then set_flag cpu .C else reset_flag cpu .C) .A
        (((read_register cpu .A <<< 1) % 256) ||| (read_register cpu .A >>> 7)) from rfl]
    rw [read_flags_write_a, read_flags_ite, read_flags_set_flag, read_flags_reset_flag]
    have hx : (255 ^^^ 16 : Nat) = 239 := by decide
    simp only [k2, Flag.val, hx]
  · rw [show rrca cpu i = write_register
        (if (read_register cpu .A <<< 7) % 256 = 0x80 then set_flag cpu .C
          else reset_flag cpu .C) .A
        ((read_register cpu .A >>> 1) ||| ((read_register cpu .A <<< 7) % 256)) from rfl]
    rw [read_a_write_a]
    exact k3
  · rw [show rrca cpu i = write_register
        (if (read_register cpu .A <<< 7) % 256 = 0x80 then set_flag cpu .C
          else reset_flag cpu .C) .A
        ((read_register cpu .A >>> 1) ||| ((read_register cpu .A <<< 7) % 256)) from rfl]
    rw [read_flags_write_a, read_flags_ite, read_flags_set_flag, read_flags_reset_flag]
    have hx : (255 ^^^ 16 : Nat) = 239 := by decide
    simp only [k4, Flag.val, hx]

/-- C5 witness at the state with A = 0xCC. -/
theorem rotate_accumulator_spec_witness :
    read_register (write_register Processor.new .A 0xCC) .A < 256 ∧
    (read_register (rlca (write_register Processor.new .A 0xCC) 0) .A
        = read_register (write_register Processor.new .A 0xCC) .A * 2 % 256
          + read_register (write_register Processor.new .A 0xCC) .A / 128 ∧
      read_flags (rlca (write_register Processor.new .A 0xCC) 0)
        = (if 128 ≤ read_register (write_register Processor.new .A 0xCC) .A
            then 0x10 else 0xEF) ∧
      read_register (rrca (write_register Processor.new .A 0xCC) 0) .A
        = read_register (write_register Processor.new .A 0xCC) .A / 2
          + read_register (write_register Processor.new .A 0xCC) .A % 2 * 128 ∧
      read_flags (rrca (write_register Processor.new .A 0xCC) 0)
        = (if read_register (write_register Processor.new .A 0xCC) .A % 2 = 1
            then 0x10 else 0xEF)) :=
  ⟨by decide, rotate_accumulator_spec (write_register Processor.new .A 0xCC) 0 (by decide)⟩

/-- C7 counterexample: a buffer whose title bytes are not valid UTF-8 and
whose checksum byte does not match still does not fail with
CorruptCartridge: the `from_utf8(..).unwrap()` on the title runs before
the checksum assert, so the load fails with the title error instead. -/
theorem checksum_error_order_cex :
    header_checksum bad_title_buffer ≠ bad_title_buffer 0x14D % 256 ∧
    load_result Processor.new bad_title_buffer = some .invalidTitle ∧
    LoadError.invalidTitle ≠ LoadError.corruptCartridge := by
  decide

/-- C7 amended: provided the title bytes decode as UTF-8 (the step that
precedes the checksum in the source), any buffer whose header checksum
does not match the stored checksum byte makes the load fail with the
CorruptCartridge error; the error return carries no processor state, so
the Memory Bus is left unchanged. -/
theorem checksum_mismatch_corrupt (cpu : Processor) (bytes : Nat → Nat)
    (ht : validUtf8 (title_bytes bytes) = true)
    (hc : header_checksum bytes ≠ bytes 0x14D % 256) :
    load_cartridge cpu bytes = .error .corruptCartridge := by
  unfold load_cartridge
  rw [if_neg (by simp [ht]), if_pos hc]

/-- C7 witness: the all-zero buffer has a valid (all-NUL) title and
checksum 231 against a stored byte 0. -/
theorem checksum_mismatch_corrupt_witness :
    validUtf8 (title_bytes zero_buffer) = true ∧
    header_checksum zero_buffer ≠ zero_buffer 0x14D % 256 ∧
    load_cartridge Processor.new zero_buffer = .error .corruptCartridge :=
  ⟨by decide, by decide,
    checksum_mismatch_corrupt Processor.new zero_buffer (by decide) (by decide)⟩

/-- C8: evaluation of the code at a failing input.  The marker buffer is a
ROM-only cartridge with a correct checksum, so the load succeeds, and the
claim's own example address 0x0100 does read the buffer byte; but the
source copies `memory[0..8000]` with a decimal bound, so the ROM-bank-0
address 0x2000 (= 8192 ≥ 8000) reads 0 instead of the buffer byte 0xAB. -/
theorem rom_copy_truncated :
    load_result Processor.new rom_marker_buffer = none ∧
    load_view Processor.new rom_marker_buffer 0x100 = some (rom_marker_buffer 0x100 % 256) ∧
    rom_marker_buffer 0x2000 % 256 = 0xAB ∧
    load_view Processor.new rom_marker_buffer 0x2000 = some 0 ∧
    (0 : Nat) ≠ 0xAB := by
  decide

/-- C9: the routine bound as LD [DE],A is extensionally the routine bound
as LD [BC],A — both are `load_double_registerp_a` applied to (B, C), so
both write A to the address packed from B and C; and writing arbitrary
values into D and E before the routine commutes with running it, so the
routine reads neither D nor E. -/
theorem ld_dep_a_eq_ld_bcp_a (cpu : Processor) (i : Nat) (d e : Nat) :
    ld_dep_a cpu i = ld_bcp_a cpu i ∧
    ld_dep_a cpu i = write_memory cpu
        (to_u16 (read_register cpu .B) (read_register cpu .C)) (read_register cpu .A) ∧
    ld_dep_a (write_register (write_register cpu .D d) .E e) i =
      write_register (write_register (ld_dep_a cpu i) .D d) .E e := by
  refine ⟨rfl, rfl, ?_⟩
  simp [ld_dep_a, load_double_registerp_a, write_register, write_memory, read_register,
    Register.index]

/-- C10: `dec_hlp` works on the cell at `to_u16(L, H)` while `inc_hlp`
works on the cell at `to_u16(H, L)`.  When H ≠ L the two addresses
differ; `dec_hlp` decrements (mod 256) the byte at `to_u16(L, H)` and
leaves the byte at `to_u16(H, L)` unchanged, while `inc_hlp` leaves the
byte at `to_u16(L, H)` unchanged. -/
theorem dec_hlp_swapped_address (cpu : Processor) (i : Nat)
    (hH : read_register cpu .H < 256) (hL : read_register cpu .L < 256)
    (hne : read_register cpu .H ≠ read_register cpu .L) :
    to_u16 (read_register cpu .L) (read_register cpu .H) ≠
      to_u16 (read_register cpu .H) (read_register cpu .L) ∧
    (dec_hlp cpu i).map
        (fun p => (read_memory p (to_u16 (read_register cpu .L) (read_register cpu .H)),
                   read_memory p (to_u16 (read_register cpu .H) (read_register cpu .L)))) =
      (dec_hlp cpu i).map
        (fun _ => ((read_memory cpu (to_u16 (read_register cpu .L) (read_register cpu .H)) - 1)
                     % 256,
                   read_memory cpu (to_u16 (read_register cpu .H) (read_register cpu .L)))) ∧
    (inc_hlp cpu i).map
        (fun p => read_memory p (to_u16 (read_register cpu .L) (read_register cpu .H))) =
      (inc_hlp cpu i).map
        (fun _ => read_memory cpu (to_u16 (read_register cpu .L) (read_register cpu .H))) := by
  have eL := to_u16_eq (read_register cpu .L) (read_register cpu .H) hL hH
  have eH := to_u16_eq (read_register cpu .H) (read_register cpu .L) hH hL
  have mL : to_u16 (read_register cpu .L) (read_register cpu .H) % 65536
      = to_u16 (read_register cpu .L) (read_register cpu .H) :=
    Nat.mod_eq_of_lt (by omega)
  have mH : to_u16 (read_register cpu .H) (read_register cpu .L) % 65536
      = to_u16 (read_register cpu .H) (read_register cpu .L) :=
    Nat.mod_eq_of_lt (by omega)
  have hne2 : to_u16 (read_register cpu .L) (read_register cpu .H) ≠
      to_u16 (read_register cpu .H) (read_register cpu .L) := by omega
  refine ⟨hne2, ?_, ?_⟩
  · simp only [dec_hlp]
    split
    · rfl
    · simp only [Option.map_some']
      simp only [read_memory_ite, read_memory_set_flag, read_memory_reset_flag,
        read_memory_write_register, ite_self, read_memory_write_memory, mL, mH]
      simp [Ne.symm hne2]
  · simp only [inc_hlp]
    split
    · rfl
    · simp only [Option.map_some']
      simp only [read_memory_ite, read_memory_set_flag, read_memory_reset_flag,
        read_memory_write_register, ite_self, read_memory_write_memory, mL, mH]
      simp [hne2]

/-- Concrete state for the C10 witness: H = 1, L = 2, and the byte 5 at
address `to_u16(L, H) = 0x0201` so that the decrement succeeds. -/
def hl_probe : Processor :=
  write_memory (write_register (write_register Processor.new .H 1) .L 2) 0x0201 5

/-- C10 witness at the state with H = 1, L = 2. -/
theorem dec_hlp_swapped_address_witness :
    read_register hl_probe .H < 256 ∧ read_register hl_probe .L < 256 ∧
    read_register hl_probe .H ≠ read_register hl_probe .L ∧
    (to_u16 (read_register hl_probe .L) (read_register hl_probe .H) ≠
        to_u16 (read_register hl_probe .H) (read_register hl_probe .L) ∧
      (dec_hlp hl_probe 0).map
          (fun p => (read_memory p (to_u16 (read_register hl_probe .L) (read_register hl_probe .H)),
                     read_memory p (to_u16 (read_register hl_probe .H) (read_register hl_probe .L)))) =
        (dec_hlp hl_probe 0).map
          (fun _ => ((read_memory hl_probe
                        (to_u16 (read_register hl_probe .L) (read_register hl_probe .H)) - 1) % 256,
                     read_memory hl_probe
                        (to_u16 (read_register hl_probe .H) (read_register hl_probe .L)))) ∧
      (inc_hlp hl_probe 0).map
          (fun p => read_memory p (to_u16 (read_register hl_probe .L) (read_register hl_probe .H))) =
        (inc_hlp hl_probe 0).map
          (fun _ => read_memory hl_probe
              (to_u16 (read_register hl_probe .L) (read_register hl_probe .H)))) :=
  ⟨by decide, by decide, by decide,
    dec_hlp_swapped_address hl_probe 0 (by decide) (by decide) (by decide)⟩

end GB
